import Mathlib

/-!
Shallow embedding of the sqlfunc adapter synthesizer and its type-keyed
registry (github.com/dolmen-go/sqlfunc), translated from the Go sources:
scan.go (Scan, ForEach, runForEach), stmt.go (Exec, QueryRow, Query and
their anyExec / anyQueryRow / anyQuery bodies), internal/registry/registry.go
(registryOf with Disable / Get / Register), registry.go (the registryExec /
registryQueryRow / registryQuery shims sharing the Stmt registry) and
sqlfuncregistry/reg.go (the pre-registration entry points).

Go machine-level aspects are modelled as follows: reflect types are a small
first-order universe (SType for non-function types, GoType adding function
types); reflect values are the inductive Value; errors are the nominal
GoError; the sql.Rows cursor is a Cursor listing per-row decode outcomes
plus the terminal iteration error and the Close result; destination
allocation (reflect.New) is made observable by threading an allocation
counter and recording the identifiers of the destinations each row is
scanned into.
-/

set_option autoImplicit false

/-- Non-function Go types appearing as parameters, results and column
destinations: the concrete and interface types named in utils.go
(typeRows, typeError, typeBool, typeContext, typeResult, typeTxStmt).
txLike n stands for any type whose method set implements the txStmt
interface (StmtContext), with n = 0 being *sql.Tx itself; other n stands
for any further type. -/
inductive SType where
  | rowsPtr
  | errorT
  | boolT
  | intT
  | strT
  | contextT
  | resultT
  | txLike (n : Nat)
  | other (n : Nat)
  deriving DecidableEq, Repr

/-- A Go type as seen by reflect: either a non-function type or a function
type with its ordered parameter and result lists. -/
inductive GoType where
  | simple (t : SType)
  | func (ins : List SType) (outs : List SType)
  deriving DecidableEq, Repr

/-- Capability check fnType.In(1).Implements(typeTxStmt) from stmt.go:
any type exposing the StmtContext method qualifies, not a concrete type. -/
def implementsTxStmt : SType → Bool
  | .txLike _ => true
  | _ => false

/-- A Go error value, identified nominally so that sentinel errors can be
compared by identity. -/
structure GoError where
  msg : String
  deriving DecidableEq, Repr

/-- A Go value as passed through reflect.Value: column values, the results
of a reflect Call, context and transaction arguments. The tx constructor
carries the IsNil flag that stmt.go consults on the second argument. -/
inductive Value where
  | int (n : Int)
  | str (s : String)
  | bool (b : Bool)
  | err (e : Option GoError)
  | ctx
  | tx (isNil : Bool)
  deriving DecidableEq, Repr

/-- Result of v.Bool() on a reflect.Value; the callback type guarantees the
value is a bool on the path where runForEach.run reads it. -/
def Value.asBool : Value → Bool
  | .bool b => b
  | _ => false

/-- Result of the v.Interface().(error) type assertion in runForEach.run:
some e when the interface holds the non-nil error e, none when the
assertion fails or the error interface is nil (isError = false). -/
def Value.asErr : Value → Option GoError
  | .err e => e
  | _ => none

/-- Result of v.IsNil() for the optional transaction argument. -/
def Value.isNilTx : Value → Bool
  | .tx b => b
  | _ => false

/-! ## internal/registry/registry.go : registryOf -/

/-- Lookup in the registry map r.r[typ]: first matching key, none when
absent (the zero value of the Go map read). -/
def mapFind {T : Type} : List (GoType × T) → GoType → Option T
  | [], _ => none
  | (k, v) :: rest, typ => if k = typ then some v else mapFind rest typ

/-- Map assignment r.r[typ] = v: replace the entry for typ or add it. -/
def mapPut {T : Type} : List (GoType × T) → GoType → T → List (GoType × T)
  | [], typ, v => [(typ, v)]
  | (k, w) :: rest, typ, v =>
      if k = typ then (k, v) :: rest else (k, w) :: mapPut rest typ v

/-- One adapter family of internal/registry/registry.go: a disable flag and
a map from exact function type to the family's adapter type T. -/
structure registryOf (T : Type) where
  disabled : Bool
  r : List (GoType × T)

/-- registryOf.Disable: store the flag; the map is untouched. -/
def registryOf.Disable {T : Type} (reg : registryOf T) (ig : Bool) : registryOf T :=
  { reg with disabled := ig }

/-- registryOf.Get: return the zero value (absent) unconditionally while
the disable flag is set, otherwise read the map. -/
def registryOf.Get {T : Type} (reg : registryOf T) (typ : GoType) : Option T :=
  if reg.disabled then none else mapFind reg.r typ

/-- registryOf.Register: last-write-wins insertion into the map; performed
regardless of the disable flag. -/
def registryOf.Register {T : Type} (reg : registryOf T) (typ : GoType) (v : T) :
    registryOf T :=
  { reg with r := mapPut reg.r typ v }

/-! ## scan.go : ForEach classification and the runForEach loop -/

/-- The runForEach adapter struct of scan.go: the callback parameter types
and the returnType discriminant (0 = no return, 1 = bool, 2 = error). -/
structure runForEach where
  inTypes : List SType
  returnType : Nat
  deriving DecidableEq, Repr

/-- Outcome of the shape checks at the top of ForEach in scan.go, run only
on a registry miss: either the synthesized runForEach data or the panic
message raised. -/
inductive ForEachClass where
  | ok (r : runForEach)
  | panic (msg : String)
  deriving DecidableEq, Repr

/-- The classification block of ForEach (scan.go): reject non-function
callbacks, reject zero parameters, then switch on NumOut: zero returns,
a single bool return, a single error return, anything else panics. -/
def classifyForEach : GoType → ForEachClass
  | .simple _ => .panic "callback must be a func"
  | .func ins outs =>
      if ins.length = 0 then .panic "callback must accept at least one argument"
      else
        match outs with
        | [] => .ok ⟨ins, 0⟩
        | [.boolT] => .ok ⟨ins, 1⟩
        | [.errorT] => .ok ⟨ins, 2⟩
        | [_] => .panic "callback may only return an error or a bool"
        | _ => .panic "callback may only return an error or a bool"

/-- One row as the cursor presents it to rows.Scan: either the decoded
column values or the scan error for that row. -/
inductive RowOutcome where
  | ok (vals : List Value)
  | scanErr (e : GoError)
  deriving DecidableEq, Repr

/-- The borrowed sql.Rows cursor: the remaining rows in order, the terminal
error rows.Err() reports after exhaustion, and the error rows.Close()
returns. -/
structure Cursor where
  rows : List RowOutcome
  iterErr : Option GoError
  closeErr : Option GoError
  deriving DecidableEq, Repr

/-- The user callback as invoked through fn.Call: given the number of rows
dispatched so far (modelling a stateful closure) and the decoded column
values, produce the reflect results of the call. -/
def Callback : Type := Nat → List Value → List Value

/-- How the for rows.Next() loop of runForEach.run ended. -/
inductive LoopExit where
  | exhausted
  | scanError (e : GoError)
  | stopFalse
  | stopErr (e : GoError)
  deriving DecidableEq, Repr

/-- Destination identifiers handed out by reflect.New, numbered from an
allocation counter so that reuse of destinations is observable. -/
def allocIds (start n : Nat) : List Nat :=
  (List.range n).map (fun i => start + i)

/-- The for rows.Next() loop of runForEach.run: dests are the destinations
the enclosing call allocated once before the loop (scanners / fnArgs);
every iteration zeroes and scans into those same destinations, then
dispatches the callback according to returnType. Returns how the loop
ended, the number of callback dispatches, and per attempted row the
destinations scanned into. -/
def forEachLoop (rt : Nat) (cb : Callback) (dests : List Nat) :
    List RowOutcome → Nat → LoopExit × Nat × List (List Nat)
  | [], n => (.exhausted, n, [])
  | .scanErr e :: _, n => (.scanError e, n, [dests])
  | .ok vals :: rest, n =>
      match rt with
      | 0 =>
          let t := forEachLoop 0 cb dests rest (n + 1)
          (t.1, t.2.1, dests :: t.2.2)
      | 1 =>
          if ((cb n vals).headD (.bool false)).asBool then
            let t := forEachLoop 1 cb dests rest (n + 1)
            (t.1, t.2.1, dests :: t.2.2)
          else (.stopFalse, n + 1, [dests])
      | 2 =>
          match ((cb n vals).headD (.err none)).asErr with
          | some e => (.stopErr e, n + 1, [dests])
          | none =>
              let t := forEachLoop 2 cb dests rest (n + 1)
              (t.1, t.2.1, dests :: t.2.2)
      | _ =>
          let t := forEachLoop rt cb dests rest n
          (t.1, t.2.1, dests :: t.2.2)

/-- Everything observable about one runForEach.run call: how the loop
ended, the error the loop left in err when the deferred close ran, the
error finally returned, the number of callback dispatches, how many times
rows.Close ran, the destinations allocated for the call and the
destinations used per attempted row. -/
structure RunResult where
  exit : LoopExit
  errLoop : Option GoError
  err : Option GoError
  dispatched : Nat
  closeCount : Nat
  destIds : List Nat
  rowDests : List (List Nat)
  deriving DecidableEq, Repr

/-- The error held in the named return err at the moment the deferred
rows.Close() of runForEach.run executes, per exit path: rows.Err() on
normal exhaustion, the scan error verbatim, nil on a bool false stop, the
user callback error verbatim on an error stop. -/
def exitErr (c : Cursor) : LoopExit → Option GoError
  | .exhausted => c.iterErr
  | .scanError e => some e
  | .stopFalse => none
  | .stopErr e => some e

/-- runForEach.run of scan.go: allocate one destination per callback
parameter before the loop (reflect.New in the scanners / fnArgs setup),
run the loop, set err per exit path, then let the deferred rows.Close()
report its error only when err is still nil. The deferred close runs
exactly once on every one of these exit paths. -/
def runForEach.run (r : runForEach) (cb : Callback) (c : Cursor) (start : Nat) :
    RunResult :=
  let dests := allocIds start r.inTypes.length
  let t := forEachLoop r.returnType cb dests c.rows 0
  { exit := t.1
    errLoop := exitErr c t.1
    err := match exitErr c t.1 with
           | some e => some e
           | none => c.closeErr
    dispatched := t.2.1
    closeCount := 1
    destIds := dests
    rowDests := t.2.2 }

/-- Outcome of a whole ForEach call: a classification panic raised before
any adapter ran, or the adapter's run result together with the
registration launched in the background (the fire-and-forget
go registry.ForEach.Register). -/
inductive ForEachResult where
  | panicked (msg : String)
  | completed (res : RunResult) (publish : Option (GoType × runForEach))

/-- Number of times the cursor was closed during a ForEach call: the only
close is the deferred one inside runForEach.run, which a classification
panic never reaches. -/
def ForEachResult.closeCount : ForEachResult → Nat
  | .panicked _ => 0
  | .completed res _ => res.closeCount

/-- Number of callback dispatches of a ForEach call. -/
def ForEachResult.dispatched : ForEachResult → Nat
  | .panicked _ => 0
  | .completed res _ => res.dispatched

/-- The error value a completed ForEach call returned to its caller. -/
def ForEachResult.errOf : ForEachResult → Option GoError
  | .panicked _ => none
  | .completed res _ => res.err

/-- How the adapter loop of a completed ForEach call ended. -/
def ForEachResult.exitOf : ForEachResult → Option LoopExit
  | .panicked _ => none
  | .completed res _ => some res.exit

/-- ForEach of scan.go: look the callback type up in the ForEach registry;
on a hit run the cached adapter with no registration; on a miss classify
the callback (panicking on a bad shape), synthesize the runForEach
adapter, launch the background registration keyed by the callback's exact
function type, and run the adapter. -/
def ForEach (reg : registryOf runForEach) (fnType : GoType) (cb : Callback)
    (c : Cursor) (start : Nat) : ForEachResult :=
  match reg.Get fnType with
  | some f => .completed (f.run cb c start) none
  | none =>
      match classifyForEach fnType with
      | .panic m => .panicked m
      | .ok f => .completed (f.run cb c start) (some (fnType, f))

/-! ## scan.go : the anyScan return-value adapter -/

/-- The return-value style Scan adapter synthesized by anyScan (the
numOut greater than one branch): the destinations (scanners / out) are
allocated by reflect.New once at synthesis time, outside the closure, and
captured; outTypes are the column result types of the function type. -/
structure ScanRVAdapter where
  outTypes : List SType
  destIds : List Nat
  deriving DecidableEq, Repr

/-- anyScan synthesis of a return-value style function: allocate one
destination per result column (all but the trailing error) at synthesis
time, numbering them from the allocation counter. -/
def synthScanRV (outTypes : List SType) (start : Nat) : ScanRVAdapter :=
  { outTypes := outTypes, destIds := allocIds start outTypes.length }

/-- One invocation of the closure anyScan built: zero the captured
destinations, scan the current row into those same captured destinations,
and return the decoded values together with the scan error. The returned
identifiers are the destinations written by this invocation. -/
def ScanRVAdapter.invoke (a : ScanRVAdapter) (row : RowOutcome) :
    List Nat × List Value × Option GoError :=
  match row with
  | .ok vals => (a.destIds, vals, none)
  | .scanErr e => (a.destIds, List.replicate a.outTypes.length (.int 0), some e)

/-! ## stmt.go : Exec / QueryRow / Query classification and synthesis -/

/-- Outcome of the shape checks of anyExec and anyQueryRow, run only on a
registry miss: either acceptance with the withTx capability flag, or the
panic message raised. -/
inductive StmtClass where
  | ok (withTx : Bool)
  | panic (msg : String)
  deriving DecidableEq, Repr

/-- The shape checks of anyExec (stmt.go): function kind, first parameter
context.Context, optional second parameter detected by the txStmt
capability, results exactly (sql.Result, error). -/
def classifyExec : GoType → StmtClass
  | .simple _ => .panic "fnPtr must be a pointer to a *func* variable"
  | .func ins outs =>
      if ins.headD (.other 0) ≠ .contextT ∨ ins.length < 1 then
        .panic "func first arg must be a context.Context"
      else
        let withTx := decide (ins.length > 1) && implementsTxStmt (ins.getD 1 (.other 0))
        if outs = [.resultT, .errorT] then .ok withTx
        else .panic "func must return (sql.Result, error)"

/-- The shape checks of anyQueryRow (stmt.go): function kind, first
parameter context.Context, optional txStmt-capable second parameter, at
least one result column, trailing error result. -/
def classifyQueryRow : GoType → StmtClass
  | .simple _ => .panic "fnPtr must be a pointer to a *func* variable"
  | .func ins outs =>
      if ins.headD (.other 0) ≠ .contextT ∨ ins.length < 1 then
        .panic "func first arg must be a context.Context"
      else
        let withTx := decide (ins.length > 1) && implementsTxStmt (ins.getD 1 (.other 0))
        if outs.length < 2 then .panic "func must return at least one column"
        else if outs.getLastD .errorT ≠ .errorT then .panic "func must return an error"
        else .ok withTx

/-- The shape checks of anyQuery (stmt.go): function kind, first parameter
context.Context, results exactly (*sql.Rows, error). No transaction
capability is looked for on the second parameter (the FIXME in the
source). -/
def classifyQuery : GoType → StmtClass
  | .simple _ => .panic "fnPtr must be a pointer to a *func* variable"
  | .func ins outs =>
      if ins.headD (.other 0) ≠ .contextT ∨ ins.length < 1 then
        .panic "func first arg must be a context.Context"
      else if outs = [.rowsPtr, .errorT] then .ok false
      else .panic "func must return (*sql.Rows, error)"

/-- Which prepared statement an invocation of a synthesized call function
ran against: the base statement of the builder, or the transaction-scoped
statement obtained through StmtContext. -/
inductive StmtUsed where
  | base
  | txScoped
  deriving DecidableEq, Repr

/-- What one invocation of a synthesized statement-call function did:
which statement it ran against and which positional arguments it passed
to the underlying Exec / QueryRow / Query context call. -/
structure CallTrace where
  used : StmtUsed
  args : List Value
  deriving DecidableEq, Repr

/-- One invocation of the closure anyExec built: when withTx was detected
and the second argument is a non-nil transaction, rebind the statement to
the transaction via StmtContext; arguments after the context (and the
transaction, when present) are passed positionally. The anyQueryRow
closure dispatches the statement and its arguments identically. -/
def execInvoke (withTx : Bool) (inVals : List Value) : CallTrace :=
  let firstArg := if withTx then 2 else 1
  { used := if withTx && !((inVals.getD 1 (.tx true)).isNilTx) then .txScoped else .base
    args := inVals.drop firstArg }

/-- One invocation of the closure anyQuery built: always the base
statement; every argument after the context is passed positionally to
QueryContext, including any transaction value in second position. -/
def queryInvoke (inVals : List Value) : CallTrace :=
  { used := .base, args := inVals.drop 1 }

/-- The opaque statement-adapter factory stored in the shared Stmt
registry (a Go value of type func(*sql.Stmt) reflect.Value); the registry
and the three lookups treat it opaquely. -/
structure StmtFn where
  id : Nat
  deriving DecidableEq, Repr

/-- The content of the caller's function variable after a statement-call
builder ran: a closure synthesized by the builder itself, or the result
of applying a registered factory to the prepared statement. -/
inductive StmtCallFn where
  | synthExec (withTx : Bool)
  | synthQueryRow (withTx : Bool) (outTypes : List SType)
  | synthQuery
  | fromRegistry (f : StmtFn)
  deriving DecidableEq, Repr

/-- The release function a statement-call builder returns: the no-op
func() error of the preparation-failure path, or stmt.Close. -/
inductive CloseFn where
  | noop
  | stmtClose
  deriving DecidableEq, Repr

/-- The database handle as the builders see it: the outcome of
db.PrepareContext and the error stmt.Close would report. -/
structure DB where
  prepErr : Option GoError
  stmtCloseErr : Option GoError
  deriving DecidableEq, Repr

/-- Invoking the release function: the no-op returns nil, stmt.Close
reports the statement close error. -/
def CloseFn.run : CloseFn → DB → Option GoError
  | .noop, _ => none
  | .stmtClose, db => db.stmtCloseErr

/-- Outcome of anyExec / anyQueryRow / anyQuery: a classification panic,
or the returned (close, err) pair together with the content of the
caller's function variable afterwards (var0 being its prior content,
untouched on the preparation-failure path). -/
inductive BuildResult where
  | panicked (msg : String)
  | returned (close : CloseFn) (err : Option GoError) (fnVar : Option StmtCallFn)
  deriving DecidableEq, Repr

/-- anyExec of stmt.go: consult the shared Stmt registry; on a miss run
the shape checks (panicking on a bad shape); prepare the statement, and on
failure return the no-op release function and the preparation error with
the function variable untouched; otherwise install the call function and
return stmt.Close. -/
def anyExec (makeFn : Option StmtFn) (fnType : GoType) (db : DB)
    (var0 : Option StmtCallFn) : BuildResult :=
  match makeFn with
  | some f =>
      match db.prepErr with
      | some e => .returned .noop (some e) var0
      | none => .returned .stmtClose none (some (.fromRegistry f))
  | none =>
      match classifyExec fnType with
      | .panic m => .panicked m
      | .ok withTx =>
          match db.prepErr with
          | some e => .returned .noop (some e) var0
          | none => .returned .stmtClose none (some (.synthExec withTx))

/-- anyQueryRow of stmt.go, structured exactly as anyExec with its own
shape checks and synthesized closure. -/
def anyQueryRow (makeFn : Option StmtFn) (fnType : GoType) (db : DB)
    (var0 : Option StmtCallFn) : BuildResult :=
  match makeFn with
  | some f =>
      match db.prepErr with
      | some e => .returned .noop (some e) var0
      | none => .returned .stmtClose none (some (.fromRegistry f))
  | none =>
      match classifyQueryRow fnType with
      | .panic m => .panicked m
      | .ok withTx =>
          match db.prepErr with
          | some e => .returned .noop (some e) var0
          | none =>
              match fnType with
              | .func _ outs =>
                  .returned .stmtClose none
                    (some (.synthQueryRow withTx (outs.dropLast)))
              | .simple _ => .panicked "fnPtr must be a pointer to a *func* variable"

/-- anyQuery of stmt.go, structured exactly as anyExec with its own shape
checks and synthesized closure (which never rebinds to a transaction). -/
def anyQuery (makeFn : Option StmtFn) (fnType : GoType) (db : DB)
    (var0 : Option StmtCallFn) : BuildResult :=
  match makeFn with
  | some f =>
      match db.prepErr with
      | some e => .returned .noop (some e) var0
      | none => .returned .stmtClose none (some (.fromRegistry f))
  | none =>
      match classifyQuery fnType with
      | .panic m => .panicked m
      | .ok _ =>
          match db.prepErr with
          | some e => .returned .noop (some e) var0
          | none => .returned .stmtClose none (some .synthQuery)

/-! ## registry.go and sqlfuncregistry/reg.go : the shared Stmt registry -/

/-- The three process-wide registry families of
internal/registry/registry.go: ForEach, Scan and the single Stmt registry
shared by Exec, QueryRow and Query. -/
structure Registries where
  forEachR : registryOf runForEach
  scanR : registryOf ScanRVAdapter
  stmtR : registryOf StmtFn

/-- registryExec of registry.go: a lookup in the shared Stmt registry. -/
def registryExec (st : Registries) (typ : GoType) : Option StmtFn :=
  st.stmtR.Get typ

/-- registryQueryRow of registry.go: the same lookup in the same shared
Stmt registry. -/
def registryQueryRow (st : Registries) (typ : GoType) : Option StmtFn :=
  st.stmtR.Get typ

/-- registryQuery of registry.go: the same lookup in the same shared Stmt
registry. -/
def registryQuery (st : Registries) (typ : GoType) : Option StmtFn :=
  st.stmtR.Get typ

/-- sqlfuncregistry.Exec: pre-register a statement adapter factory under
the exact function type, into the shared Stmt registry. -/
def sqlfuncregistryExec (st : Registries) (typ : GoType) (f : StmtFn) : Registries :=
  { st with stmtR := st.stmtR.Register typ f }

/-- sqlfuncregistry.QueryRow: registration into the same shared Stmt
registry. -/
def sqlfuncregistryQueryRow (st : Registries) (typ : GoType) (f : StmtFn) : Registries :=
  { st with stmtR := st.stmtR.Register typ f }

/-- sqlfuncregistry.Query: registration into the same shared Stmt
registry. -/
def sqlfuncregistryQuery (st : Registries) (typ : GoType) (f : StmtFn) : Registries :=
  { st with stmtR := st.stmtR.Register typ f }

/-! ## Helper lemmas -/

/-- A Register insertion is visible to a subsequent map lookup of the same
key. -/
theorem mapFind_mapPut_self {T : Type} (l : List (GoType × T)) (typ : GoType)
    (v : T) : mapFind (mapPut l typ v) typ = some v := by
  induction l with
  | nil => simp [mapPut, mapFind]
  | cons kv rest ih =>
      obtain ⟨k, w⟩ := kv
      by_cases h : k = typ
      · simp [mapPut, mapFind, h]
      · simp [mapPut, mapFind, h, ih]

/-- Every row of a runForEach loop is scanned into the destinations the
call allocated before the loop: the loop itself never allocates. -/
theorem forEachLoop_rowDests (rt : Nat) (cb : Callback) (dests : List Nat)
    (rows : List RowOutcome) (n : Nat) :
    ∀ d ∈ (forEachLoop rt cb dests rows n).2.2, d = dests := by
  induction rows generalizing n with
  | nil => simp [forEachLoop]
  | cons row rest ih =>
      cases row with
      | scanErr e => simp [forEachLoop]
      | ok vals =>
          intro d hd
          rcases rt with _ | _ | _ | rt4
          · simp only [forEachLoop] at hd
            rcases List.mem_cons.mp hd with h | h
            · exact h
            · exact ih _ d h
          · simp only [forEachLoop] at hd
            split at hd
            · rcases List.mem_cons.mp hd with h | h
              · exact h
              · exact ih _ d h
            · simpa using hd
          · simp only [forEachLoop] at hd
            split at hd
            · simpa using hd
            · rcases List.mem_cons.mp hd with h | h
              · exact h
              · exact ih _ d h
          · simp only [forEachLoop] at hd
            rcases List.mem_cons.mp hd with h | h
            · exact h
            · exact ih _ d h

/-! ## Claims -/

/-- Claim C5: after Disable(true) every Get returns absent regardless of
prior or subsequent Register calls and regardless of cache contents;
Register while disabled still takes effect in the map; after
Disable(false) previously registered entries are visible again; Disable
never clears the map. -/
theorem registry_disable_semantics {T : Type} (reg : registryOf T)
    (typ typ2 : GoType) (v w : T) (b : Bool) :
    (reg.Disable true).Get typ = none ∧
    ((reg.Register typ2 w).Disable true).Get typ = none ∧
    ((reg.Disable true).Register typ2 w).Get typ = none ∧
    (reg.Disable b).r = reg.r ∧
    (((reg.Disable true).Register typ v).Disable false).Get typ = some v ∧
    (((reg.Register typ v).Disable true).Disable false).Get typ = some v := by
  refine ⟨?_, ?_, ?_, ?_, ?_, ?_⟩ <;>
    simp [registryOf.Get, registryOf.Disable, registryOf.Register,
      mapFind_mapPut_self]

/-- Claim C10: Exec, QueryRow and Query all consult the single shared Stmt
registry keyed only by the exact function type: an adapter registered
through any of the three pre-registration entry points is returned
unchanged by the lookups of all three operations, and the three lookups
are literally the same operation (none inspects the registering
sub-family). -/
theorem stmt_registry_shared_across_families (st : Registries) (typ : GoType)
    (f : StmtFn) (hdis : st.stmtR.disabled = false) :
    registryExec (sqlfuncregistryExec st typ f) typ = some f ∧
    registryQueryRow (sqlfuncregistryExec st typ f) typ = some f ∧
    registryQuery (sqlfuncregistryExec st typ f) typ = some f ∧
    registryExec (sqlfuncregistryQueryRow st typ f) typ = some f ∧
    registryQueryRow (sqlfuncregistryQueryRow st typ f) typ = some f ∧
    registryQuery (sqlfuncregistryQueryRow st typ f) typ = some f ∧
    registryExec (sqlfuncregistryQuery st typ f) typ = some f ∧
    registryQueryRow (sqlfuncregistryQuery st typ f) typ = some f ∧
    registryQuery (sqlfuncregistryQuery st typ f) typ = some f ∧
    (∀ st2 t2, registryExec st2 t2 = registryQueryRow st2 t2 ∧
      registryQueryRow st2 t2 = registryQuery st2 t2) := by
  refine ⟨?_, ?_, ?_, ?_, ?_, ?_, ?_, ?_, ?_, fun st2 t2 => ⟨rfl, rfl⟩⟩ <;>
    simp [registryExec, registryQueryRow, registryQuery, sqlfuncregistryExec,
      sqlfuncregistryQueryRow, sqlfuncregistryQuery, registryOf.Get,
      registryOf.Register, hdis, mapFind_mapPut_self]

/-- Claim C10 witness: a factory registered through the Query entry point
is returned by the Exec and QueryRow lookups of an initially empty,
enabled registry. -/
theorem stmt_registry_shared_across_families_witness :
    registryExec
      (sqlfuncregistryQuery ⟨⟨false, []⟩, ⟨false, []⟩, ⟨false, []⟩⟩
        (.func [.contextT] [.rowsPtr, .errorT]) ⟨7⟩)
      (.func [.contextT] [.rowsPtr, .errorT]) = some ⟨7⟩ ∧
    registryQueryRow
      (sqlfuncregistryQuery ⟨⟨false, []⟩, ⟨false, []⟩, ⟨false, []⟩⟩
        (.func [.contextT] [.rowsPtr, .errorT]) ⟨7⟩)
      (.func [.contextT] [.rowsPtr, .errorT]) = some ⟨7⟩ := by
  have h := stmt_registry_shared_across_families
    ⟨⟨false, []⟩, ⟨false, []⟩, ⟨false, []⟩⟩ (.func [.contextT] [.rowsPtr, .errorT])
    ⟨7⟩ rfl
  exact ⟨h.2.2.2.2.2.2.1, h.2.2.2.2.2.2.2.1⟩

/-- Claim C1: on a ForEach call whose callback type classifies
successfully, is absent from the ForEach registry and with the disable
flag clear, the call runs the freshly synthesized adapter and launches a
background registration keyed by the callback's exact function type; the
run result is a function of the adapter, callback and cursor alone, so it
does not depend on the publish; after the publish lands, Get returns that
same adapter, and a subsequent ForEach call runs it with identical
decoding behavior. -/
theorem foreach_miss_publishes_adapter (reg : registryOf runForEach)
    (fnType : GoType) (f : runForEach) (cb : Callback) (c : Cursor) (start : Nat)
    (hdis : reg.disabled = false)
    (habs : mapFind reg.r fnType = none)
    (hok : classifyForEach fnType = .ok f) :
    ForEach reg fnType cb c start =
      .completed (f.run cb c start) (some (fnType, f)) ∧
    (reg.Register fnType f).Get fnType = some f ∧
    (∀ cb2 c2 s2, ForEach (reg.Register fnType f) fnType cb2 c2 s2 =
      .completed (f.run cb2 c2 s2) none) := by
  have hget : reg.Get fnType = none := by
    simp [registryOf.Get, hdis, habs]
  have hget2 : (reg.Register fnType f).Get fnType = some f := by
    simp [registryOf.Get, registryOf.Register, hdis, mapFind_mapPut_self]
  refine ⟨?_, hget2, ?_⟩
  · simp [ForEach, hget, hok]
  · intro cb2 c2 s2
    simp [ForEach, hget2]

/-- Claim C1 witness: a single-column no-return callback type on an empty
enabled registry is synthesized, run and published; the published entry
is then present. -/
theorem foreach_miss_publishes_adapter_witness :
    ForEach ⟨false, []⟩ (.func [.intT] []) (fun _ _ => []) ⟨[], none, none⟩ 0 =
      .completed ((⟨[.intT], 0⟩ : runForEach).run (fun _ _ => [])
        ⟨[], none, none⟩ 0) (some (.func [.intT] [], ⟨[.intT], 0⟩)) ∧
    ((⟨false, []⟩ : registryOf runForEach).Register (.func [.intT] [])
      ⟨[.intT], 0⟩).Get (.func [.intT] []) = some ⟨[.intT], 0⟩ := by
  have h := foreach_miss_publishes_adapter ⟨false, []⟩ (.func [.intT] [])
    ⟨[.intT], 0⟩ (fun _ _ => []) ⟨[], none, none⟩ 0 rfl rfl rfl
  exact ⟨h.1, h.2.1⟩

/-- Claim C9: a ForEach call whose callback misses the registry and fails
classification (not a function, zero parameters, or a disallowed return
shape) panics with the classification message before any adapter runs:
no row is dispatched and the cursor is never closed on that path, since
the only close is the deferred one inside the adapter run. -/
theorem foreach_bad_shape_panics_without_close (reg : registryOf runForEach)
    (fnType : GoType) (cb : Callback) (c : Cursor) (start : Nat) (m : String)
    (habs : reg.Get fnType = none)
    (hbad : classifyForEach fnType = .panic m) :
    ForEach reg fnType cb c start = .panicked m ∧
    (ForEach reg fnType cb c start).closeCount = 0 ∧
    (ForEach reg fnType cb c start).dispatched = 0 := by
  have h : ForEach reg fnType cb c start = .panicked m := by
    simp [ForEach, habs, hbad]
  refine ⟨h, ?_, ?_⟩ <;> rw [h] <;> rfl

/-- Claim C9 witness: passing a non-function callback to ForEach on an
empty enabled registry panics and the three-row cursor is left unclosed
with zero dispatches. -/
theorem foreach_bad_shape_panics_without_close_witness :
    ForEach ⟨false, []⟩ (.simple .intT) (fun _ _ => [])
      ⟨[.ok [.int 1], .ok [.int 2], .ok [.int 3]], none, none⟩ 0 =
      .panicked "callback must be a func" ∧
    (ForEach ⟨false, []⟩ (.simple .intT) (fun _ _ => [])
      ⟨[.ok [.int 1], .ok [.int 2], .ok [.int 3]], none, none⟩ 0).closeCount = 0 := by
  have h := foreach_bad_shape_panics_without_close ⟨false, []⟩ (.simple .intT)
    (fun _ _ => []) ⟨[.ok [.int 1], .ok [.int 2], .ok [.int 3]], none, none⟩ 0
    "callback must be a func" rfl rfl
  exact ⟨h.1, h.2.1⟩

/-- Claim C2: a callback whose single return value is bool is accepted by
ForEach classification; over a 3-row cursor, when the callback answers
true on the first dispatched row and false on the second, exactly two
rows are dispatched, the loop stops on the false answer, and the cursor
is closed exactly once. -/
theorem foreach_bool_early_stop (reg : registryOf runForEach) (ins : List SType)
    (cb : Callback) (v1 v2 v3 : List Value) (ie ce : Option GoError) (start : Nat)
    (hne : ins ≠ [])
    (habs : reg.Get (.func ins [.boolT]) = none)
    (h0 : cb 0 v1 = [.bool true])
    (h1 : cb 1 v2 = [.bool false]) :
    classifyForEach (.func ins [.boolT]) = .ok ⟨ins, 1⟩ ∧
    (ForEach reg (.func ins [.boolT]) cb
      ⟨[.ok v1, .ok v2, .ok v3], ie, ce⟩ start).dispatched = 2 ∧
    (ForEach reg (.func ins [.boolT]) cb
      ⟨[.ok v1, .ok v2, .ok v3], ie, ce⟩ start).exitOf = some .stopFalse ∧
    (ForEach reg (.func ins [.boolT]) cb
      ⟨[.ok v1, .ok v2, .ok v3], ie, ce⟩ start).closeCount = 1 := by
  have hcl : classifyForEach (.func ins [.boolT]) = .ok ⟨ins, 1⟩ := by
    simp [classifyForEach, hne]
  have hloop : forEachLoop 1 cb (allocIds start ins.length)
      [.ok v1, .ok v2, .ok v3] 0 =
      (.stopFalse, 2, [allocIds start ins.length, allocIds start ins.length]) := by
    simp [forEachLoop, h0, h1, Value.asBool]
  refine ⟨hcl, ?_, ?_, ?_⟩ <;>
    simp [ForEach, habs, hcl, runForEach.run, hloop, ForEachResult.dispatched,
      ForEachResult.exitOf, ForEachResult.closeCount]

/-- Claim C2 witness: a concrete single-int-column bool callback stopping
after the second of three rows dispatches exactly two rows and closes the
cursor once. -/
theorem foreach_bool_early_stop_witness :
    (ForEach ⟨false, []⟩ (.func [.intT] [.boolT])
      (fun n _ => [.bool (n = 0)])
      ⟨[.ok [.int 1], .ok [.int 2], .ok [.int 3]], none, none⟩ 0).dispatched = 2 ∧
    (ForEach ⟨false, []⟩ (.func [.intT] [.boolT])
      (fun n _ => [.bool (n = 0)])
      ⟨[.ok [.int 1], .ok [.int 2], .ok [.int 3]], none, none⟩ 0).closeCount = 1 := by
  have h := foreach_bool_early_stop ⟨false, []⟩ [.intT]
    (fun n _ => [.bool (n = 0)]) [.int 1] [.int 2] [.int 3] none none 0
    (by decide) rfl (by simp) (by simp)
  exact ⟨h.2.1, h.2.2.2⟩

/-- Claim C6: a callback whose single return value is error is accepted by
ForEach classification; over a 3-row cursor, when the callback returns a
nil error on the first dispatched row and a sentinel error on the second,
exactly two rows are dispatched and ForEach returns exactly that sentinel
value, unwrapped. -/
theorem foreach_error_stop_sentinel (reg : registryOf runForEach)
    (ins : List SType) (cb : Callback) (v1 v2 v3 : List Value)
    (ie ce : Option GoError) (start : Nat) (sentinel : GoError)
    (hne : ins ≠ [])
    (habs : reg.Get (.func ins [.errorT]) = none)
    (h0 : cb 0 v1 = [.err none])
    (h1 : cb 1 v2 = [.err (some sentinel)]) :
    classifyForEach (.func ins [.errorT]) = .ok ⟨ins, 2⟩ ∧
    (ForEach reg (.func ins [.errorT]) cb
      ⟨[.ok v1, .ok v2, .ok v3], ie, ce⟩ start).dispatched = 2 ∧
    (ForEach reg (.func ins [.errorT]) cb
      ⟨[.ok v1, .ok v2, .ok v3], ie, ce⟩ start).errOf = some sentinel ∧
    (ForEach reg (.func ins [.errorT]) cb
      ⟨[.ok v1, .ok v2, .ok v3], ie, ce⟩ start).closeCount = 1 := by
  have hcl : classifyForEach (.func ins [.errorT]) = .ok ⟨ins, 2⟩ := by
    simp [classifyForEach, hne]
  have hloop : forEachLoop 2 cb (allocIds start ins.length)
      [.ok v1, .ok v2, .ok v3] 0 =
      (.stopErr sentinel, 2,
        [allocIds start ins.length, allocIds start ins.length]) := by
    simp [forEachLoop, h0, h1, Value.asErr]
  refine ⟨hcl, ?_, ?_, ?_⟩ <;>
    simp [ForEach, habs, hcl, runForEach.run, hloop, ForEachResult.dispatched,
      ForEachResult.errOf, ForEachResult.closeCount, exitErr]

/-- Claim C6 witness: a concrete error-returning callback producing a
sentinel on the second of three rows dispatches two rows and ForEach
returns the sentinel by identity. -/
theorem foreach_error_stop_sentinel_witness :
    (ForEach ⟨false, []⟩ (.func [.intT] [.errorT])
      (fun n _ => [.err (if n = 0 then none else some ⟨"sentinel"⟩)])
      ⟨[.ok [.int 1], .ok [.int 2], .ok [.int 3]], none,
        some ⟨"close failed"⟩⟩ 0).dispatched = 2 ∧
    (ForEach ⟨false, []⟩ (.func [.intT] [.errorT])
      (fun n _ => [.err (if n = 0 then none else some ⟨"sentinel"⟩)])
      ⟨[.ok [.int 1], .ok [.int 2], .ok [.int 3]], none,
        some ⟨"close failed"⟩⟩ 0).errOf = some ⟨"sentinel"⟩ := by
  have h := foreach_error_stop_sentinel ⟨false, []⟩ [.intT]
    (fun n _ => [.err (if n = 0 then none else some ⟨"sentinel"⟩)])
    [.int 1] [.int 2] [.int 3] none (some ⟨"close failed"⟩) 0 ⟨"sentinel"⟩
    (by decide) rfl (by simp) (by simp)
  exact ⟨h.2.1, h.2.2.1⟩

/-- Claim C4: every run of the ForEach adapter closes the cursor exactly
once; the close error becomes the reported error exactly when no error
was recorded before the deferred close ran; and on normal exhaustion the
error recorded before the close is the cursor's terminal iteration error,
so with no decode, callback or close error the call reports rows.Err(). -/
theorem runforeach_close_once_error_masking (r : runForEach) (cb : Callback)
    (c : Cursor) (start : Nat) :
    (r.run cb c start).closeCount = 1 ∧
    ((r.run cb c start).errLoop = none → (r.run cb c start).err = c.closeErr) ∧
    (∀ e, (r.run cb c start).errLoop = some e →
      (r.run cb c start).err = some e) ∧
    ((r.run cb c start).exit = .exhausted →
      (r.run cb c start).errLoop = c.iterErr) := by
  have key : (r.run cb c start).err =
      (match (r.run cb c start).errLoop with
       | some e => some e
       | none => c.closeErr) := rfl
  have key2 : (r.run cb c start).errLoop = exitErr c (r.run cb c start).exit := rfl
  refine ⟨rfl, ?_, ?_, ?_⟩
  · intro h
    rw [key, h]
  · intro e h
    rw [key, h]
  · intro h
    rw [key2, h]
    rfl

/-- Claim C4 witness: on an exhausted empty cursor with no iteration error
and a failing close, the single close runs and its error is reported. -/
theorem runforeach_close_once_error_masking_witness :
    ((⟨[.intT], 0⟩ : runForEach).run (fun _ _ => [])
      ⟨[], none, some ⟨"close failed"⟩⟩ 0).closeCount = 1 ∧
    ((⟨[.intT], 0⟩ : runForEach).run (fun _ _ => [])
      ⟨[], none, some ⟨"close failed"⟩⟩ 0).err = some ⟨"close failed"⟩ := by
  have h := runforeach_close_once_error_masking ⟨[.intT], 0⟩ (fun _ _ => [])
    ⟨[], none, some ⟨"close failed"⟩⟩ 0
  exact ⟨h.1, h.2.1 rfl⟩

/-- Claim C7: for each of Exec, QueryRow and Query, with a well-shaped
function type (and likewise on a registry hit), a statement preparation
failure makes the builder return the preparation error together with the
no-op release function, and the caller's function variable keeps its
prior content; the no-op release function returns nil on any database. -/
theorem stmt_builders_prepare_error_noop (t1 t2 t3 : GoType)
    (w1 w2 w3 : Bool) (db : DB) (v1 v2 v3 : Option StmtCallFn) (f : StmtFn)
    (e : GoError)
    (hp : db.prepErr = some e)
    (h1 : classifyExec t1 = .ok w1)
    (h2 : classifyQueryRow t2 = .ok w2)
    (h3 : classifyQuery t3 = .ok w3) :
    anyExec none t1 db v1 = .returned .noop (some e) v1 ∧
    anyQueryRow none t2 db v2 = .returned .noop (some e) v2 ∧
    anyQuery none t3 db v3 = .returned .noop (some e) v3 ∧
    anyExec (some f) t1 db v1 = .returned .noop (some e) v1 ∧
    anyQueryRow (some f) t2 db v2 = .returned .noop (some e) v2 ∧
    anyQuery (some f) t3 db v3 = .returned .noop (some e) v3 ∧
    (∀ db2, CloseFn.noop.run db2 = none) := by
  refine ⟨?_, ?_, ?_, ?_, ?_, ?_, fun _ => rfl⟩ <;>
    simp [anyExec, anyQueryRow, anyQuery, hp, h1, h2, h3]

/-- Claim C7 witness: concrete well-shaped exec, query-one-row and
query-many function types with a failing prepare return the preparation
error, the no-op release function and an untouched nil function
variable. -/
theorem stmt_builders_prepare_error_noop_witness :
    anyExec none (.func [.contextT] [.resultT, .errorT])
      ⟨some ⟨"prepare failed"⟩, none⟩ none =
      .returned .noop (some ⟨"prepare failed"⟩) none ∧
    anyQuery none (.func [.contextT] [.rowsPtr, .errorT])
      ⟨some ⟨"prepare failed"⟩, none⟩ none =
      .returned .noop (some ⟨"prepare failed"⟩) none ∧
    CloseFn.noop.run ⟨some ⟨"prepare failed"⟩, none⟩ = none := by
  have h := stmt_builders_prepare_error_noop
    (.func [.contextT] [.resultT, .errorT])
    (.func [.contextT] [.intT, .errorT])
    (.func [.contextT] [.rowsPtr, .errorT])
    false false false ⟨some ⟨"prepare failed"⟩, none⟩ none none none
    ⟨1⟩ ⟨"prepare failed"⟩ rfl (by decide) (by decide) (by decide)
  exact ⟨h.1, h.2.2.1, h.2.2.2.2.2.2 _⟩

/-- Claim C3 (code bug evaluation): the exec and query-one-row builders
accept a txStmt-capable second parameter by capability (including types
other than *sql.Tx) and an invocation with a non-nil transaction runs
against the transaction-scoped statement; but the query-many builder
never detects the capability: it accepts the shape, reports no
transaction binding, and its invocation runs against the base statement,
passing the transaction value on as a positional query argument. -/
theorem query_tx_capability_missing :
    classifyExec (.func [.contextT, .txLike 0, .intT] [.resultT, .errorT]) =
      .ok true ∧
    classifyExec (.func [.contextT, .txLike 1, .intT] [.resultT, .errorT]) =
      .ok true ∧
    execInvoke true [.ctx, .tx false, .int 5] =
      ⟨.txScoped, [.int 5]⟩ ∧
    classifyQueryRow (.func [.contextT, .txLike 0, .intT] [.intT, .errorT]) =
      .ok true ∧
    classifyQuery (.func [.contextT, .txLike 0, .intT] [.rowsPtr, .errorT]) =
      .ok false ∧
    queryInvoke [.ctx, .tx false, .int 5] =
      ⟨.base, [.tx false, .int 5]⟩ := by
  decide

/-- Claim C8 counterexample: with one int column, a two-row cursor and
the allocation counter at 5, both rows of one ForEach adapter run are
scanned into the same destination 5, and the return-value Scan adapter
synthesized at counter 3 writes destination 3 on two different
invocations: destinations are not freshly allocated per row, nor per Scan
invocation. -/
theorem dest_reuse_counterexample :
    (runForEach.run ⟨[.intT], 0⟩ (fun _ _ => [])
      ⟨[.ok [.int 1], .ok [.int 2]], none, none⟩ 5).rowDests = [[5], [5]] ∧
    ((synthScanRV [.intT] 3).invoke (.ok [.int 1])).1 = [3] ∧
    ((synthScanRV [.intT] 3).invoke (.ok [.int 2])).1 = [3] := by
  decide

/-- Claim C8 as amended: the ForEach adapter allocates its destinations
once per run, at the run's allocation counter (fresh per invocation, so
concurrent ForEach calls do not share them), and every row of that run is
scanned into those same destinations (zeroed, not reallocated, between
rows); the return-value Scan adapter allocates its destinations once at
synthesis time and every invocation reuses them. -/
theorem dest_allocation_discipline (r : runForEach) (cb : Callback)
    (c : Cursor) (start : Nat) (outs : List SType) (s : Nat)
    (row row2 : RowOutcome) :
    (r.run cb c start).destIds = allocIds start r.inTypes.length ∧
    (∀ d ∈ (r.run cb c start).rowDests, d = (r.run cb c start).destIds) ∧
    ((synthScanRV outs s).invoke row).1 = allocIds s outs.length ∧
    ((synthScanRV outs s).invoke row).1 = ((synthScanRV outs s).invoke row2).1 := by
  refine ⟨rfl, ?_, ?_, ?_⟩
  · intro d hd
    exact forEachLoop_rowDests r.returnType cb _ c.rows 0 d hd
  · cases row <;> rfl
  · cases row <;> cases row2 <;> rfl

/-- Claim C8 amended witness: a two-column adapter run starting at counter
4 allocates destinations 4 and 5, its only row is scanned into exactly
those, and a Scan adapter synthesized at counter 9 uses destination 9 on
both of two invocations. -/
theorem dest_allocation_discipline_witness :
    ((⟨[.intT, .strT], 0⟩ : runForEach).run (fun _ _ => [])
      ⟨[.ok [.int 1, .str "a"]], none, none⟩ 4).destIds = allocIds 4 2 ∧
    [4, 5] = ((⟨[.intT, .strT], 0⟩ : runForEach).run (fun _ _ => [])
      ⟨[.ok [.int 1, .str "a"]], none, none⟩ 4).destIds ∧
    ((synthScanRV [.intT] 9).invoke (.ok [.int 1])).1 =
      ((synthScanRV [.intT] 9).invoke (.scanErr ⟨"bad"⟩)).1 := by
  have h := dest_allocation_discipline ⟨[.intT, .strT], 0⟩ (fun _ _ => [])
    ⟨[.ok [.int 1, .str "a"]], none, none⟩ 4 [.intT] 9
    (.ok [.int 1]) (.scanErr ⟨"bad"⟩)
  exact ⟨h.1, h.2.1 [4, 5] (by decide), h.2.2.2⟩
